import Mathlib

/-!
Shallow embedding of `src/task_manager.py` (class `TaskManager`), a
single-file command-line task tracker.  Tasks are Python dicts with the
five fields id, description, status, created_at, updated_at; the
collection `self.tasks` is a Python list; `load_tasks`/`save_tasks`
exchange it with a JSON file via `json.load`/`json.dump`.

Status strings in the source are Spanish: "pendiente" (the spec calls it
pending), "en_progreso" (in_progress), "terminada" (done).

Time: `datetime.now().isoformat()` is modelled by passing each call's
result as an explicit string argument; `add_task` performs two separate
`now()` calls (one for created_at, one for updated_at), so it receives
two such arguments.
-/

namespace TaskManager

/-- A task record as built by `TaskManager.add_task`: a dict with the keys
id, description, status, created_at, updated_at, in that insertion order. -/
structure Task where
  id : Int
  description : String
  status : String
  created_at : String
  updated_at : String
deriving DecidableEq, Repr

/-- JSON values as `json.load` can produce them.  Numbers are modelled as
integers, which covers everything this program writes (ids are ints and
every other field is a string). -/
inductive Json where
  | null : Json
  | bool : Bool → Json
  | num : Int → Json
  | str : String → Json
  | arr : List Json → Json
  | obj : List (String × Json) → Json

/-- How `json.dump` serializes one task dict: an object whose fields appear
in the dict's insertion order (add_task builds the dict in this order, and
Python dicts and json.dump preserve it). -/
def taskToJson (t : Task) : Json :=
  .obj [("id", .num t.id), ("description", .str t.description),
        ("status", .str t.status), ("created_at", .str t.created_at),
        ("updated_at", .str t.updated_at)]

/-- How `json.dump` serializes the task list. -/
def tasksToJson (ts : List Task) : Json :=
  .arr (ts.map taskToJson)

/-- The observable states of the backing file when `load_tasks` runs.
`missing` means `os.path.exists` is false; `undecodable` means the file
exists and is read but its contents raise `json.JSONDecodeError`;
`unreadable` means the file exists (so `os.path.exists` is true) but
opening or reading it raises an error that is neither
`json.JSONDecodeError` nor `FileNotFoundError` — for example
`PermissionError`, or `UnicodeDecodeError` on non-UTF-8 bytes — which the
except clause of `load_tasks` does not catch; `valid v` means the
contents decode to the JSON value `v`. -/
inductive FileState where
  | missing : FileState
  | undecodable : FileState
  | unreadable : FileState
  | valid : Json → FileState

/-- An exception escaping `load_tasks` to its caller. -/
inductive ReadError where
  | osError : ReadError
deriving DecidableEq, Repr

/-- `TaskManager.load_tasks`: returns `json.load(f)` when the file exists
and decodes; returns `[]` when the file is missing or raises
`json.JSONDecodeError` (or `FileNotFoundError`); any other exception
propagates, since the except clause names only those two types. -/
def load_tasks : FileState → Except ReadError Json
  | .missing => .ok (.arr [])
  | .undecodable => .ok (.arr [])
  | .unreadable => .error .osError
  | .valid v => .ok v

/-- `TaskManager.save_tasks`: `json.dump(self.tasks, f, ...)` overwrites
the backing file with the serialization of the full collection. -/
def save_tasks (ts : List Task) : FileState :=
  .valid (tasksToJson ts)

/-- The manager state the mutating operations act on: the in-memory list
`self.tasks` plus the backing file.  (After a `load_tasks` of a file
holding arbitrary JSON the in-memory value need not be a task list at
all — see the load theorems; the operational model here covers the states
in which `self.tasks` is a list of well-formed task dicts, which is every
state reachable through add/update/delete.) -/
structure MState where
  tasks : List Task
  file : FileState

/-- The user-visible outcome a mutating operation prints. -/
inductive OpResult where
  | ok : OpResult
  | notFound : OpResult
  | invalidStatus : OpResult
deriving DecidableEq, Repr

/-- `TaskManager.add_task`: builds the dict with id `len(self.tasks) + 1`,
status "pendiente", created_at and updated_at from two successive
`datetime.now()` calls (`now1`, `now2`), appends it, saves, and prints the
assigned id; the built task is returned here as the observable output. -/
def add_task (s : MState) (description now1 now2 : String) : MState × Task :=
  let task : Task :=
    { id := (s.tasks.length : Int) + 1, description := description,
      status := "pendiente", created_at := now1, updated_at := now2 }
  let tasks := s.tasks ++ [task]
  ({ tasks := tasks, file := save_tasks tasks }, task)

/-- The for-loop pattern of update_task/update_status: rewrite the first
element satisfying `p` with `f` and stop; `none` when no element matches. -/
def updateFirst (p : Task → Bool) (f : Task → Task) : List Task → Option (List Task)
  | [] => none
  | t :: ts =>
    if p t then some (f t :: ts)
    else (updateFirst p f ts).map (fun r => t :: r)

/-- The for-loop pattern of delete_task: remove the first element
satisfying `p`; `none` when no element matches. -/
def deleteFirst (p : Task → Bool) : List Task → Option (List Task)
  | [] => none
  | t :: ts =>
    if p t then some ts
    else (deleteFirst p ts).map (fun r => t :: r)

/-- `TaskManager.update_task`: linear scan for the first task whose id
equals `task_id`; on a match, replace its description, refresh updated_at,
save and return; otherwise print not-found, with no mutation and no save. -/
def update_task (s : MState) (task_id : Int) (description now : String) :
    MState × OpResult :=
  match updateFirst (fun t => t.id == task_id)
      (fun t => { t with description := description, updated_at := now }) s.tasks with
  | some ts => ({ tasks := ts, file := save_tasks ts }, .ok)
  | none => (s, .notFound)

/-- `TaskManager.delete_task`: linear scan for the first task whose id
equals `task_id`; on a match, delete it (preserving the order of the
rest), save and return; otherwise print not-found, with no mutation and
no save. -/
def delete_task (s : MState) (task_id : Int) : MState × OpResult :=
  match deleteFirst (fun t => t.id == task_id) s.tasks with
  | some ts => ({ tasks := ts, file := save_tasks ts }, .ok)
  | none => (s, .notFound)

/-- The `valid_statuses` list of `TaskManager.update_status`. -/
def valid_statuses : List String :=
  ["pendiente", "en_progreso", "terminada"]

/-- `TaskManager.update_status`: first rejects a status outside
`valid_statuses` (before any lookup, touching nothing); otherwise scans
for the first task whose id equals `task_id`, sets its status, refreshes
updated_at and saves, or prints not-found with no mutation and no save. -/
def update_status (s : MState) (task_id : Int) (status now : String) :
    MState × OpResult :=
  if status ∈ valid_statuses then
    match updateFirst (fun t => t.id == task_id)
        (fun t => { t with status := status, updated_at := now }) s.tasks with
    | some ts => ({ tasks := ts, file := save_tasks ts }, .ok)
    | none => (s, .notFound)
  else (s, .invalidStatus)

/-- `TaskManager.list_all_tasks` prints every task of `self.tasks` in
order; the printed sequence is the observable output. -/
def list_all_tasks (ts : List Task) : List Task :=
  ts

/-- `TaskManager.list_pending_tasks`: the comprehension filtering
`self.tasks` by status "pendiente". -/
def list_pending_tasks (ts : List Task) : List Task :=
  ts.filter (fun t => t.status == "pendiente")

/-- `TaskManager.list_in_progress_tasks`: the comprehension filtering
`self.tasks` by status "en_progreso". -/
def list_in_progress_tasks (ts : List Task) : List Task :=
  ts.filter (fun t => t.status == "en_progreso")

/-- `TaskManager.list_completed_tasks`: the comprehension filtering
`self.tasks` by status "terminada". -/
def list_completed_tasks (ts : List Task) : List Task :=
  ts.filter (fun t => t.status == "terminada")

/-- A sequence of `add_task` calls folded over a start state; each input
is (description, now1, now2) for that call. -/
def runAdds (s : MState) (inputs : List (String × String × String)) : MState :=
  inputs.foldl (fun s i => (add_task s i.1 i.2.1 i.2.2).1) s

/-- The empty store over a given backing-file state: `self.tasks == []`. -/
def emptyStore (f : FileState) : MState :=
  { tasks := [], file := f }

/-- Structural check, from the data model of the spec, that a JSON value
is an ordered sequence of task records carrying the five required fields
with their semantic types.  `load_tasks` performs no such check; this
definition exists to state that fact. -/
def isTaskArray : Json → Bool
  | .arr vs =>
    vs.all (fun v =>
      match v with
      | .obj [("id", .num _), ("description", .str _), ("status", .str _),
              ("created_at", .str _), ("updated_at", .str _)] => true
      | _ => false)
  | _ => false

/-! Helper lemmas shared by the claim theorems. -/

theorem taskToJson_inj : Function.Injective taskToJson := by
  intro a b h
  cases a; cases b
  simp only [taskToJson, Json.obj.injEq, List.cons.injEq, Prod.mk.injEq,
    Json.num.injEq, Json.str.injEq, and_true, true_and] at h
  simp_all

theorem tasksToJson_inj : Function.Injective tasksToJson := by
  intro a b h
  simp only [tasksToJson, Json.arr.injEq] at h
  exact List.map_injective_iff.mpr taskToJson_inj h

theorem updateFirst_eq_none {p : Task → Bool} {f : Task → Task} :
    ∀ {ts : List Task}, (∀ t ∈ ts, p t = false) → updateFirst p f ts = none := by
  intro ts h
  induction ts with
  | nil => rfl
  | cons t ts ih =>
    simp only [updateFirst, h t (by simp), Bool.false_eq_true, if_false]
    rw [ih (fun x hx => h x (by simp [hx]))]
    rfl

theorem deleteFirst_eq_none {p : Task → Bool} :
    ∀ {ts : List Task}, (∀ t ∈ ts, p t = false) → deleteFirst p ts = none := by
  intro ts h
  induction ts with
  | nil => rfl
  | cons t ts ih =>
    simp only [deleteFirst, h t (by simp), Bool.false_eq_true, if_false]
    rw [ih (fun x hx => h x (by simp [hx]))]
    rfl

theorem runAdds_ids (inputs : List (String × String × String)) :
    ∀ s : MState, (runAdds s inputs).tasks.map Task.id =
      s.tasks.map Task.id ++
        (List.range' (s.tasks.length + 1) inputs.length).map (fun n => (n : Int)) := by
  induction inputs with
  | nil => intro s; simp [runAdds]
  | cons i rest ih =>
    intro s
    have hstep : runAdds s (i :: rest) = runAdds (add_task s i.1 i.2.1 i.2.2).1 rest := rfl
    rw [hstep, ih]
    simp only [add_task, List.map_append, List.length_append, List.map_cons, List.map_nil,
      List.length_cons, List.length_nil, List.length_singleton]
    rw [List.range'_succ (s.tasks.length + 1) rest.length 1]
    simp [List.append_assoc]

/-! Claim theorems. -/

/-- C3: persisting any in-memory collection of tasks to the backing file
and loading from that same file succeeds and yields exactly the persisted
serialization, and that serialization determines the collection uniquely
(content and order), so the round trip loses nothing. -/
theorem C3_round_trip (ts : List Task) :
    load_tasks (save_tasks ts) = .ok (tasksToJson ts) ∧
    ∀ ts2, tasksToJson ts2 = tasksToJson ts → ts2 = ts :=
  ⟨rfl, fun _ h => tasksToJson_inj h⟩

/-- Witness for C3 at a one-task store. -/
theorem C3_round_trip_witness :
    load_tasks (save_tasks [⟨1, "buy milk", "pendiente", "t", "t"⟩]) =
      .ok (tasksToJson [⟨1, "buy milk", "pendiente", "t", "t"⟩]) ∧
    ([⟨1, "buy milk", "pendiente", "t", "t"⟩] : List Task) =
      [⟨1, "buy milk", "pendiente", "t", "t"⟩] :=
  ⟨(C3_round_trip [⟨1, "buy milk", "pendiente", "t", "t"⟩]).1,
   (C3_round_trip [⟨1, "buy milk", "pendiente", "t", "t"⟩]).2
     [⟨1, "buy milk", "pendiente", "t", "t"⟩] rfl⟩

/-- C4 (amended): load initializes the collection empty on a missing file
or a decoding failure, never surfacing those errors, and on a successful
parse adopts the parsed value; but an exception other than
FileNotFoundError or JSONDecodeError raised while the file is opened or
read (for example PermissionError) is not caught and propagates to the
caller. -/
theorem C4_load_fail_open :
    load_tasks .missing = .ok (.arr []) ∧
    load_tasks .undecodable = .ok (.arr []) ∧
    ∀ v, load_tasks (.valid v) = .ok v :=
  ⟨rfl, rfl, fun _ => rfl⟩

/-- Counterexample to C4 as stated: a file that exists but whose read
raises an error other than FileNotFoundError or JSONDecodeError makes
load_tasks propagate the error to the caller instead of returning an
empty collection. -/
theorem C4_load_counterexample :
    load_tasks .unreadable = .error .osError :=
  rfl

/-- C10: load performs no structural validation: every successfully
decoded JSON value is adopted as the in-memory collection unchanged, even
one that is not an array of five-field task records, such as the bare
number 5. -/
theorem C10_load_no_validation :
    (∀ v, load_tasks (.valid v) = .ok v) ∧
    isTaskArray (.num 5) = false ∧
    load_tasks (.valid (.num 5)) = .ok (.num 5) :=
  ⟨fun _ => rfl, rfl, rfl⟩

/-- C5: for an id held by no task in the store, update_task,
update_status with a valid status, and delete_task leave the whole state
(collection and backing file) unchanged and report not-found. -/
theorem C5_not_found (s : MState) (task_id : Int) (d st now : String)
    (habs : ∀ t ∈ s.tasks, t.id ≠ task_id) (hst : st ∈ valid_statuses) :
    update_task s task_id d now = (s, .notFound) ∧
    update_status s task_id st now = (s, .notFound) ∧
    delete_task s task_id = (s, .notFound) := by
  have hfalse : ∀ t ∈ s.tasks, (t.id == task_id) = false := by
    intro t ht
    simp only [beq_eq_false_iff_ne, ne_eq]
    exact habs t ht
  refine ⟨?_, ?_, ?_⟩
  · rw [update_task, updateFirst_eq_none hfalse]
  · rw [update_status, if_pos hst, updateFirst_eq_none hfalse]
  · rw [delete_task, deleteFirst_eq_none hfalse]

/-- Witness for C5: a store holding only the task with id 1, queried at
id 2 with the valid status "terminada". -/
theorem C5_not_found_witness :
    update_task ⟨[⟨1, "a", "pendiente", "t", "t"⟩], .missing⟩ 2 "d" "u" =
      (⟨[⟨1, "a", "pendiente", "t", "t"⟩], .missing⟩, .notFound) ∧
    update_status ⟨[⟨1, "a", "pendiente", "t", "t"⟩], .missing⟩ 2 "terminada" "u" =
      (⟨[⟨1, "a", "pendiente", "t", "t"⟩], .missing⟩, .notFound) ∧
    delete_task ⟨[⟨1, "a", "pendiente", "t", "t"⟩], .missing⟩ 2 =
      (⟨[⟨1, "a", "pendiente", "t", "t"⟩], .missing⟩, .notFound) :=
  C5_not_found ⟨[⟨1, "a", "pendiente", "t", "t"⟩], .missing⟩ 2 "d" "terminada" "u"
    (by intro t ht; simp at ht; simp [ht]) (by simp [valid_statuses])

/-- C6: update_status with a status outside the fixed enumeration rejects
it, performs no save, and returns the state — in particular every prior
status — unchanged. -/
theorem C6_invalid_status (s : MState) (task_id : Int) (st now : String)
    (h : st ∉ valid_statuses) :
    update_status s task_id st now = (s, .invalidStatus) := by
  rw [update_status, if_neg h]

/-- Witness for C6: the valid English word "done" is not one of the
Spanish status strings the source accepts. -/
theorem C6_invalid_status_witness :
    update_status ⟨[⟨1, "a", "pendiente", "t", "t"⟩], .missing⟩ 1 "done" "u" =
      (⟨[⟨1, "a", "pendiente", "t", "t"⟩], .missing⟩, .invalidStatus) :=
  C6_invalid_status ⟨[⟨1, "a", "pendiente", "t", "t"⟩], .missing⟩ 1 "done" "u"
    (by simp [valid_statuses])

/-- C9: the validity check precedes the id lookup, so with an invalid
status the outcome is invalidStatus even when the id is absent from the
store; not-found is not reported and the state (collection and file) is
untouched. -/
theorem C9_invalid_before_lookup (s : MState) (task_id : Int) (st now : String)
    (hst : st ∉ valid_statuses) (habs : ∀ t ∈ s.tasks, t.id ≠ task_id) :
    (update_status s task_id st now).2 = .invalidStatus ∧
    ¬ (update_status s task_id st now).2 = .notFound ∧
    (update_status s task_id st now).1 = s := by
  rw [update_status, if_neg hst]
  exact ⟨rfl, by simp, rfl⟩

/-- Witness for C9: the empty store, id 1 (absent), status "hecho"
(invalid). -/
theorem C9_invalid_before_lookup_witness :
    (update_status (emptyStore .missing) 1 "hecho" "u").2 = .invalidStatus ∧
    ¬ (update_status (emptyStore .missing) 1 "hecho" "u").2 = .notFound ∧
    (update_status (emptyStore .missing) 1 "hecho" "u").1 = emptyStore .missing :=
  C9_invalid_before_lookup (emptyStore .missing) 1 "hecho" "u"
    (by simp [valid_statuses]) (by simp [emptyStore])

/-- C7: each status-filtered listing returns exactly the filter of
list_all_tasks by that status, is a sublist of it (same relative order),
and contains a task precisely when list_all_tasks contains it with that
status; the listings are functions of the collection alone, performing no
mutation and no save. -/
theorem C7_list_by_status (ts : List Task) :
    list_pending_tasks ts = (list_all_tasks ts).filter (fun t => t.status == "pendiente") ∧
    List.Sublist (list_pending_tasks ts) (list_all_tasks ts) ∧
    (∀ t, t ∈ list_pending_tasks ts ↔ t ∈ list_all_tasks ts ∧ t.status = "pendiente") ∧
    list_in_progress_tasks ts = (list_all_tasks ts).filter (fun t => t.status == "en_progreso") ∧
    List.Sublist (list_in_progress_tasks ts) (list_all_tasks ts) ∧
    (∀ t, t ∈ list_in_progress_tasks ts ↔ t ∈ list_all_tasks ts ∧ t.status = "en_progreso") ∧
    list_completed_tasks ts = (list_all_tasks ts).filter (fun t => t.status == "terminada") ∧
    List.Sublist (list_completed_tasks ts) (list_all_tasks ts) ∧
    (∀ t, t ∈ list_completed_tasks ts ↔ t ∈ list_all_tasks ts ∧ t.status = "terminada") := by
  refine ⟨rfl, List.filter_sublist ts, ?_, rfl, List.filter_sublist ts, ?_,
    rfl, List.filter_sublist ts, ?_⟩ <;>
  · intro t
    simp [list_pending_tasks, list_in_progress_tasks, list_completed_tasks,
      list_all_tasks, List.mem_filter]

/-- Witness for C7: a pending task is listed by list_pending_tasks. -/
theorem C7_list_by_status_witness :
    (⟨1, "a", "pendiente", "t", "t"⟩ : Task) ∈
      list_pending_tasks [⟨1, "a", "pendiente", "t", "t"⟩] :=
  ((C7_list_by_status [⟨1, "a", "pendiente", "t", "t"⟩]).2.2.1
    ⟨1, "a", "pendiente", "t", "t"⟩).mpr ⟨by simp [list_all_tasks], rfl⟩

/-- C1: starting from the empty store, a sequence of N add_task calls
with N distinct descriptions (and no other operations) assigns ids
exactly 1..N in creation order. -/
theorem C1_add_ids (inputs : List (String × String × String)) (f : FileState)
    (hdistinct : (inputs.map (fun i => i.1)).Nodup) :
    (runAdds (emptyStore f) inputs).tasks.map Task.id =
      (List.range' 1 inputs.length).map (fun n => (n : Int)) := by
  have h := runAdds_ids inputs (emptyStore f)
  simpa [emptyStore] using h

/-- Witness for C1: two adds with distinct descriptions yield ids 1, 2. -/
theorem C1_add_ids_witness :
    (runAdds (emptyStore .missing)
        [("a", "t1", "t2"), ("b", "t3", "t4")]).tasks.map Task.id =
      (List.range' 1 2).map (fun n => (n : Int)) :=
  C1_add_ids [("a", "t1", "t2"), ("b", "t3", "t4")] .missing (by decide)

/-- C2 (id reuse after deletion): from the empty store, after adding
tasks "a", "b", "c" (ids 1, 2, 3), deleting id 2 and adding "d", the new
task gets id `len + 1 = 3`, which collides with the surviving task of id
3: the store's ids are [1, 3, 3], with id 3 occurring twice, refuting the
pairwise-distinct-ids invariant. -/
theorem C2_id_reuse :
    ((add_task (delete_task (runAdds (emptyStore .missing)
        [("a", "t", "t"), ("b", "t", "t"), ("c", "t", "t")]) 2).1
        "d" "t" "t").1.tasks.map Task.id = [1, 3, 3]) ∧
    List.count (3 : Int)
      ((add_task (delete_task (runAdds (emptyStore .missing)
        [("a", "t", "t"), ("b", "t", "t"), ("c", "t", "t")]) 2).1
        "d" "t" "t").1.tasks.map Task.id) = 2 :=
  ⟨rfl, rfl⟩

/-- C8 (amended): add_task constructs the task with id = count + 1,
the given description, status "pendiente", created_at and updated_at
taken from the two successive clock reads (so they are equal whenever the
two reads return the same string), appends it at the end, persists the
new collection, and reports the created task. -/
theorem C8_add (s : MState) (d now1 now2 : String) :
    (add_task s d now1 now2).2.id = (s.tasks.length : Int) + 1 ∧
    (add_task s d now1 now2).2.description = d ∧
    (add_task s d now1 now2).2.status = "pendiente" ∧
    (add_task s d now1 now2).2.created_at = now1 ∧
    (add_task s d now1 now2).2.updated_at = now2 ∧
    (add_task s d now1 now2).1.tasks = s.tasks ++ [(add_task s d now1 now2).2] ∧
    (add_task s d now1 now2).1.file = save_tasks (add_task s d now1 now2).1.tasks ∧
    (now1 = now2 → (add_task s d now1 now2).2.created_at = (add_task s d now1 now2).2.updated_at) :=
  ⟨rfl, rfl, rfl, rfl, rfl, rfl, rfl, fun h => h⟩

/-- Witness for C8 at the empty store with coinciding clock reads. -/
theorem C8_add_witness :
    (add_task (emptyStore .missing) "buy milk" "t" "t").2.created_at =
      (add_task (emptyStore .missing) "buy milk" "t" "t").2.updated_at :=
  (C8_add (emptyStore .missing) "buy milk" "t" "t").2.2.2.2.2.2.2 rfl

/-- Counterexample to C8 as stated: created_at and updated_at come from
two separate datetime.now() calls, so when the two reads differ (for
example by one microsecond) the created task has created_at not equal to
updated_at. -/
theorem C8_counterexample :
    ((add_task (emptyStore .missing) "x" "2024-01-01T00:00:00.000001"
        "2024-01-01T00:00:00.000002").2.created_at ==
      (add_task (emptyStore .missing) "x" "2024-01-01T00:00:00.000001"
        "2024-01-01T00:00:00.000002").2.updated_at) = false := by
  decide

end TaskManager
